import Mathlib

/-!
Verification of the DPAS (Decimal Positional Angle System) angle value type.

The source is a single class `DPAS` storing one field `_deg` (degrees,
reduced modulo 360 at construction) and exposing derived accessors
`degrees`, `radians`, `macro`, `micro`, `domain`.  We embed the class
shallowly over `ℚ`: every numeric literal of the source is rational, and
Python's `%` with the positive divisor `360` is the mathematical
(non-negative-result) modulo `x - 360 * ⌊x / 360⌋`.
-/

namespace DPAS

/-- Python's `x % 360` for the positive divisor `360`: the mathematical
modulo, `x - 360 * ⌊x / 360⌋`, whose result always lies in `[0, 360)`. -/
def mod360 (x : ℚ) : ℚ := x - 360 * ⌊x / 360⌋

/-- The exact rational value of the IEEE-754 double constant `math.pi`. -/
def piFloat : ℚ := 884279719003555 / 281474976710656

/-- `math.degrees(x)`: conversion from radians to degrees, `x * (180 / pi)`. -/
def mathDegrees (x : ℚ) : ℚ := x * (180 / piFloat)

/-- `math.radians(x)`: conversion from degrees to radians, `x * (pi / 180)`. -/
def mathRadians (x : ℚ) : ℚ := x * (piFloat / 180)

/-- The DPAS angle object.  Its sole stored state is the field the source
calls `_deg`: the angle in degrees, normalized at construction. -/
structure Angle where
  deg : ℚ
deriving DecidableEq

/-- The message of the `ValueError` raised on an unrecognized mode.  The
source decorates each mode name with single quotes; the error text is a
fixed constant either way and mentions only the four valid modes. -/
def invalidModeMsg : String := "Invalid mode! Use: degrees, radians, macro, micro"

/-- `DPAS.__init__(value, mode)`: dispatch on the mode string, convert the
input to degrees, reduce modulo 360, and store; any other mode string
raises `ValueError` with the fixed message. -/
def init (value : ℚ) (mode : String) : Except String Angle :=
  if mode = "degrees" then .ok ⟨mod360 value⟩
  else if mode = "radians" then .ok ⟨mod360 (mathDegrees value)⟩
  else if mode = "macro" then .ok ⟨mod360 (value * 9)⟩
  else if mode = "micro" then .ok ⟨mod360 (value * (9 / 10))⟩
  else .error invalidModeMsg

/-- `DPAS.__init__(value)` with the mode argument omitted: the Python
parameter default is the string `degrees`. -/
def initDefault (value : ℚ) : Except String Angle := init value "degrees"

/-- Accessor `degrees`: returns the stored `_deg`. -/
def Angle.degrees (a : Angle) : ℚ := a.deg

/-- Accessor `radians`: `math.radians(self._deg)`. -/
def Angle.radians (a : Angle) : ℚ := mathRadians a.deg

/-- Accessor `macro` (Lean reserves that name, hence the capital):
`self._deg / 9.0`. -/
def Angle.Macro (a : Angle) : ℚ := a.deg / 9

/-- Accessor `micro` (capitalized to match `Macro`): `self._deg / 0.9`. -/
def Angle.Micro (a : Angle) : ℚ := a.deg / (9 / 10)

/-- Accessor `domain`: chained half-open comparisons on the macro value. -/
def Angle.domain (a : Angle) : ℤ :=
  if 0 ≤ a.Macro ∧ a.Macro < 10 then 1
  else if 10 ≤ a.Macro ∧ a.Macro < 20 then 2
  else if 20 ≤ a.Macro ∧ a.Macro < 30 then 3
  else 4

theorem mod360_nonneg (x : ℚ) : 0 ≤ mod360 x := by
  have h : ((⌊x / 360⌋ : ℤ) : ℚ) ≤ x / 360 := Int.floor_le _
  unfold mod360
  linarith

theorem mod360_lt (x : ℚ) : mod360 x < 360 := by
  have h : x / 360 < (⌊x / 360⌋ : ℚ) + 1 := Int.lt_floor_add_one _
  unfold mod360
  linarith

theorem mod360_add_int_mul (x : ℚ) (k : ℤ) : mod360 (x + 360 * k) = mod360 x := by
  unfold mod360
  have h : (x + 360 * (k : ℚ)) / 360 = x / 360 + (k : ℚ) := by
    field_simp
    ring
  rw [h, Int.floor_add_int]
  push_cast
  ring

/-- Claim C1: constructing with mode degrees from any rational `d` stores
the mathematical (non-negative) `d mod 360`, so the `degrees` accessor
returns a value in `[0, 360)`; in particular constructing from `-90`
yields `degrees = 270` and `domain = 4`. -/
theorem C1_degrees_mod_roundtrip :
    (∀ d : ℚ, ∃ a : Angle, init d "degrees" = .ok a ∧
      a.degrees = mod360 d ∧ 0 ≤ a.degrees ∧ a.degrees < 360) ∧
    (∃ a : Angle, init (-90) "degrees" = .ok a ∧
      a.degrees = 270 ∧ a.domain = 4) := by
  constructor
  · intro d
    exact ⟨⟨mod360 d⟩, by simp [init], rfl, mod360_nonneg d, mod360_lt d⟩
  · refine ⟨⟨270⟩, ?_, rfl, ?_⟩
    · norm_num [init, mod360]
    · norm_num [Angle.domain, Angle.Macro]

/-- Claim C2: the `domain` accessor classifies the macro value `m` by
left-inclusive half-open bins `[0,10) ↦ 1`, `[10,20) ↦ 2`, `[20,30) ↦ 3`,
otherwise `4`; in particular macro exactly `10` gives domain `2` (not `1`)
and macro exactly `20` gives domain `3`. -/
theorem C2_domain_boundaries :
    (∀ a : Angle,
      ((0 ≤ a.Macro ∧ a.Macro < 10) → a.domain = 1) ∧
      ((10 ≤ a.Macro ∧ a.Macro < 20) → a.domain = 2) ∧
      ((20 ≤ a.Macro ∧ a.Macro < 30) → a.domain = 3) ∧
      ((¬(0 ≤ a.Macro ∧ a.Macro < 10) ∧ ¬(10 ≤ a.Macro ∧ a.Macro < 20) ∧
        ¬(20 ≤ a.Macro ∧ a.Macro < 30)) → a.domain = 4)) ∧
    ((Angle.mk 90).Macro = 10 ∧ (Angle.mk 90).domain = 2) ∧
    ((Angle.mk 180).Macro = 20 ∧ (Angle.mk 180).domain = 3) := by
  refine ⟨fun a => ⟨?_, ?_, ?_, ?_⟩, ?_, ?_⟩
  · intro h
    unfold Angle.domain
    rw [if_pos h]
  · intro h
    unfold Angle.domain
    rw [if_neg (by rintro ⟨h1, h2⟩; linarith [h.1]), if_pos h]
  · intro h
    unfold Angle.domain
    rw [if_neg (by rintro ⟨h1, h2⟩; linarith [h.1]),
      if_neg (by rintro ⟨h1, h2⟩; linarith [h.1]), if_pos h]
  · intro h
    unfold Angle.domain
    rw [if_neg h.1, if_neg h.2.1, if_neg h.2.2]
  · exact ⟨by norm_num [Angle.Macro], by norm_num [Angle.domain, Angle.Macro]⟩
  · exact ⟨by norm_num [Angle.Macro], by norm_num [Angle.domain, Angle.Macro]⟩

/-- Witness for C2 at the concrete stored angles 45, 90, 180 and 270
degrees (macro values 5, 10, 20 and 30). -/
theorem C2_domain_boundaries_witness :
    (Angle.mk 45).domain = 1 ∧ (Angle.mk 90).domain = 2 ∧
    (Angle.mk 180).domain = 3 ∧ (Angle.mk 270).domain = 4 :=
  ⟨(C2_domain_boundaries.1 (Angle.mk 45)).1 (by norm_num [Angle.Macro]),
   (C2_domain_boundaries.1 (Angle.mk 90)).2.1 (by norm_num [Angle.Macro]),
   (C2_domain_boundaries.1 (Angle.mk 180)).2.2.1 (by norm_num [Angle.Macro]),
   (C2_domain_boundaries.1 (Angle.mk 270)).2.2.2 (by norm_num [Angle.Macro])⟩

/-- Counterexample to claim C3 as stated: the error produced for the
offending mode "foo" is the same fixed message produced for the distinct
offending mode "bar", and that message does not even contain the letter f,
so the error does not carry the offending mode value. -/
theorem C3_error_payload_counterexample :
    init 0 "foo" = .error invalidModeMsg ∧
    init 0 "bar" = .error invalidModeMsg ∧
    invalidModeMsg.data.contains (Char.ofNat 102) = false :=
  ⟨by simp [init], by simp [init], by decide⟩

/-- Claim C3 as amended: every mode outside the four variants is rejected
at construction with a `ValueError` whose message is the fixed string
listing the valid modes (it does not carry the offending mode value), and
no angle object is produced. -/
theorem C3_invalid_mode_rejected (v : ℚ) (mode : String)
    (h : mode ≠ "degrees" ∧ mode ≠ "radians" ∧ mode ≠ "macro" ∧ mode ≠ "micro") :
    init v mode = .error invalidModeMsg := by
  unfold init
  rw [if_neg h.1, if_neg h.2.1, if_neg h.2.2.1, if_neg h.2.2.2]

/-- Witness for the amended C3 at the offending mode "foo". -/
theorem C3_invalid_mode_rejected_witness :
    init 0 "foo" = .error invalidModeMsg :=
  C3_invalid_mode_rejected 0 "foo" (by decide)

/-- Counterexample to claim C4 as stated: `Angle(90, degrees)` has
`domain = 2`, not `1`, because its macro value is exactly `10` and the
domain bins are left-inclusive. -/
theorem C4_scenario90_counterexample :
    init 90 "degrees" = .ok (Angle.mk 90) ∧ (Angle.mk 90).domain ≠ 1 :=
  ⟨by norm_num [init, mod360], by norm_num [Angle.domain, Angle.Macro]⟩

/-- Claim C4 as amended: `Angle(90, degrees)` yields `macro = 10`,
`micro = 100` and `domain = 2`. -/
theorem C4_scenario90_amended :
    init 90 "degrees" = .ok (Angle.mk 90) ∧ (Angle.mk 90).Macro = 10 ∧
    (Angle.mk 90).Micro = 100 ∧ (Angle.mk 90).domain = 2 :=
  ⟨by norm_num [init, mod360], by norm_num [Angle.Macro],
   by norm_num [Angle.Micro], by norm_num [Angle.domain, Angle.Macro]⟩

/-- Claim C5: every angle produced by any construction mode stores a
degrees value in `[0, 360)`.  The embedding is purely functional: the
stored field is fixed at construction and every accessor merely reads it,
so no operation mutates it. -/
theorem C5_deg_invariant (v : ℚ) (mode : String) (a : Angle)
    (h : init v mode = .ok a) : 0 ≤ a.deg ∧ a.deg < 360 := by
  unfold init at h
  split_ifs at h
  all_goals injection h with h2
  all_goals subst h2
  all_goals exact ⟨mod360_nonneg _, mod360_lt _⟩

/-- Witness for C5 at `Angle(-90, degrees)`, whose stored value is 270. -/
theorem C5_deg_invariant_witness :
    0 ≤ (Angle.mk 270).deg ∧ (Angle.mk 270).deg < 360 :=
  C5_deg_invariant (-90) "degrees" (Angle.mk 270) (by norm_num [init, mod360])

/-- Claim C6: constructing in mode macro from `v` stores `(v * 9) mod 360`
as the degrees value, and the macro accessor of an angle constructed from
degrees `d` is `(d mod 360) / 9`. -/
theorem C6_macro_roundtrip :
    (∀ v : ℚ, ∃ a : Angle, init v "macro" = .ok a ∧ a.degrees = mod360 (v * 9)) ∧
    (∀ d : ℚ, ∃ a : Angle, init d "degrees" = .ok a ∧ a.Macro = mod360 d / 9) := by
  constructor
  · intro v
    exact ⟨⟨mod360 (v * 9)⟩, by simp [init], rfl⟩
  · intro d
    exact ⟨⟨mod360 d⟩, by simp [init], rfl⟩

/-- Claim C7: construction in mode degrees from `d` and from `d + 360 * k`
produces the same object, for every integer `k`. -/
theorem C7_period_360 (d : ℚ) (k : ℤ) :
    init (d + 360 * (k : ℚ)) "degrees" = init d "degrees" := by
  simp [init, mod360_add_int_mul]

/-- Claim C8: the accessors are total functions of the stored state (they
are plain arithmetic, modelled as total Lean functions), and the domain
accessor always returns one of 1, 2, 3, 4. -/
theorem C8_domain_range (a : Angle) :
    a.domain = 1 ∨ a.domain = 2 ∨ a.domain = 3 ∨ a.domain = 4 := by
  unfold Angle.domain
  split_ifs <;> simp

/-- Claim C9: construction with the mode argument omitted uses the default
mode degrees: it agrees with construction in mode degrees and stores
`v mod 360`. -/
theorem C9_default_mode (v : ℚ) :
    initDefault v = init v "degrees" ∧
    ∃ a : Angle, initDefault v = .ok a ∧ a.degrees = mod360 v :=
  ⟨rfl, ⟨mod360 v⟩, by simp [initDefault, init], rfl⟩

/-- Claim C10: the micro accessor is always exactly ten times the macro
accessor, both being fixed rescalings of the stored degrees value. -/
theorem C10_micro_eq_ten_mul_macro (a : Angle) : a.Micro = 10 * a.Macro := by
  unfold Angle.Micro Angle.Macro
  ring

end DPAS
